import Mathlib

/-!
Shallow embedding of the uxnpy Uxn virtual machine (src/uxn.py) and its
console device (src/devices/console.py), together with theorems checking
the natural-language specification against this code.

Modelling conventions:
* Python `bytearray(n)` becomes a function `Nat → Nat`; an indexed read that
  Python would bounds-check is modelled by a checked read returning `Option`
  (an out-of-range index, which raises `IndexError` in Python, becomes `none`);
  reads at indices that are masked in the source (`& 0xffff`, `& 0xff`) are
  total and use `%` for the mask.
* A `bytearray` write is total when the source masks the value (`& 0xff`) and
  checked otherwise (Python raises `ValueError` for a value outside `[0,256)`).
* `Stack.ptr` is a Python `int`: it is stored unreduced and may go negative,
  so it is an `Int`; Python's `ptr & 0xff` on a possibly negative int is
  mathematical mod, i.e. `Int.emod`.
* The VM is modelled in the configuration `Uxn(emu=None)` (no emulator frame
  attached): `DEI` reads 0 and `DEO` invokes no handler, exactly as the
  `if self.emu` tests in the source resolve for `emu = None`.
* Python `step` returns the executed instruction byte; the embedding returns
  `Option (Uxn × Nat)`, `none` meaning an uncaught Python exception.
-/

set_option maxHeartbeats 4000000
set_option maxRecDepth 2500

namespace Uxnpy

/-- Pointwise update of a byte array modelled as a function
(`arr[i] = v` on a Python bytearray, value already in range). -/
def updFn (f : Nat → Nat) (i v : Nat) : Nat → Nat :=
  fun j => if j = i then v else f j

/-- Checked read of the 65536-byte `ram` bytearray: Python raises `IndexError`
for an index `≥ 65536`, modelled as `none`. -/
def ramGet (r : Nat → Nat) (i : Nat) : Option Nat :=
  if i < 65536 then some (r i) else none

/-- Checked write to the 65536-byte `ram` bytearray: Python raises for an
index `≥ 65536` or a value outside `[0, 256)`. -/
def ramSet (r : Nat → Nat) (i v : Nat) : Option (Nat → Nat) :=
  if i < 65536 ∧ v < 256 then some (updFn r i v) else none

/-- The `Stack` class of src/uxn.py: a 256-byte ring buffer `ram`
(named `cells` here to avoid clashing with the VM's main ram), the
top-of-stack pointer `ptr` (a Python int, stored unreduced) and the
keep-mode snapshot pointer `ptrk`. -/
structure Stack where
  cells : Nat → Nat
  ptr : Int
  ptrk : Int

/-- `Stack.PU1`: `self.ram[self.ptr & 0xff] = val & 0xff; self.ptr += 1`. -/
def Stack.PU1 (s : Stack) (val : Nat) : Stack :=
  { s with cells := updFn s.cells ((s.ptr % 256).toNat) (val % 256),
           ptr := s.ptr + 1 }

/-- `Stack.PU2`: `self.PU1(val >> 8); self.PU1(val)`. -/
def Stack.PU2 (s : Stack) (val : Nat) : Stack :=
  (s.PU1 (val >>> 8)).PU1 val

/-- `Stack.PO1`: `self.ptr -= 1; return self.ram[self.ptr & 0xff]`. -/
def Stack.PO1 (s : Stack) : Stack × Nat :=
  ({ s with ptr := s.ptr - 1 }, s.cells (((s.ptr - 1) % 256).toNat))

/-- `Stack.PO2`: `return self.PO1() | (self.PO1() << 8)` (left call first). -/
def Stack.PO2 (s : Stack) : Stack × Nat :=
  let r1 := s.PO1
  let r2 := r1.1.PO1
  (r2.1, r1.2 ||| (r2.2 <<< 8))

/-- The `Uxn` class of src/uxn.py, in the `emu = None` configuration.
The Python aliases `src`/`dst` (references to `wst`/`rst`) are modelled by
the boolean `srcIsRst`; the scratch operand registers `x`, `y`, `z`
(two-element lists in the source) are pairs. -/
structure Uxn where
  dev : Nat → Nat
  wst : Stack
  rst : Stack
  ram : Nat → Nat
  pc : Nat
  m2 : Bool
  mkFlag : Bool
  srcIsRst : Bool
  x : Nat × Nat
  y : Nat × Nat
  z : Nat × Nat

/-- Select one of the two stacks: `sel true = rst`, `sel false = wst`. -/
def Uxn.sel (u : Uxn) (b : Bool) : Stack :=
  if b then u.rst else u.wst

/-- Replace the stack selected by `b`. -/
def Uxn.setSel (u : Uxn) (b : Bool) (s : Stack) : Uxn :=
  if b then { u with rst := s } else { u with wst := s }

/-- The Python `self.src` alias. -/
def Uxn.getSrc (u : Uxn) : Stack := u.sel u.srcIsRst

/-- Write through the Python `self.src` alias. -/
def Uxn.setSrc (u : Uxn) (s : Stack) : Uxn := u.setSel u.srcIsRst s

/-- The Python `self.dst` alias (always the stack `src` is not). -/
def Uxn.getDst (u : Uxn) : Stack := u.sel (!u.srcIsRst)

/-- Write through the Python `self.dst` alias. -/
def Uxn.setDst (u : Uxn) (s : Stack) : Uxn := u.setSel (!u.srcIsRst) s

/-- `Uxn.sig`: `return val - 256 if val >= 0x80 else val`. -/
def Uxn.sig (val : Nat) : Int :=
  if 0x80 ≤ val then (val : Int) - 256 else (val : Int)

/-- `Uxn.JMP`: `self.pc = i & 0xffff if self.m2 else (self.pc + self.sig(i)) & 0xffff`. -/
def Uxn.JMP (u : Uxn) (i : Nat) : Uxn :=
  if u.m2 then { u with pc := i % 65536 }
  else { u with pc := (((u.pc : Int) + Uxn.sig i) % 65536).toNat }

/-- `Uxn.JMI`: `a = (self.ram[self.pc] << 8) | self.ram[self.pc + 1]` —
note the source does NOT mask `self.pc + 1`, so this read is checked —
then `self.pc += 2; self.pc = (self.pc + a) & 0xffff`. -/
def Uxn.JMI (u : Uxn) : Option Uxn := do
  let hi ← ramGet u.ram u.pc
  let lo ← ramGet u.ram (u.pc + 1)
  let a := (hi <<< 8) ||| lo
  some { u with pc := (u.pc + 2 + a) % 65536 }

/-- Pop one byte from `src`. -/
def Uxn.srcPO1 (u : Uxn) : Uxn × Nat :=
  let r := u.getSrc.PO1
  (u.setSrc r.1, r.2)

/-- Pop one short from `src`. -/
def Uxn.srcPO2 (u : Uxn) : Uxn × Nat :=
  let r := u.getSrc.PO2
  (u.setSrc r.1, r.2)

/-- Push one byte onto `src`. -/
def Uxn.srcPU1 (u : Uxn) (v : Nat) : Uxn := u.setSrc (u.getSrc.PU1 v)

/-- Push one short onto `src`. -/
def Uxn.srcPU2 (u : Uxn) (v : Nat) : Uxn := u.setSrc (u.getSrc.PU2 v)

/-- Push one byte onto `dst`. -/
def Uxn.dstPU1 (u : Uxn) (v : Nat) : Uxn := u.setDst (u.getDst.PU1 v)

/-- Push one short onto `dst`. -/
def Uxn.dstPU2 (u : Uxn) (v : Nat) : Uxn := u.setDst (u.getDst.PU2 v)

/-- `Uxn.POx`: `return self.src.PO2() if self.m2 else self.src.PO1()`. -/
def Uxn.POx (u : Uxn) : Uxn × Nat :=
  if u.m2 then u.srcPO2 else u.srcPO1

/-- `Uxn.PUx`: `self.src.PU2(x) if self.m2 else self.src.PU1(x)`. -/
def Uxn.PUx (u : Uxn) (v : Nat) : Uxn :=
  if u.m2 then u.srcPU2 v else u.srcPU1 v

/-- `Uxn.GET` applied to a register whose previous contents is `o`:
`o[0] = self.src.PO1(); if self.m2: o[1] = self.src.PO1()`.
Returns the state after the pops and the new register contents. -/
def Uxn.GETv (u : Uxn) (o : Nat × Nat) : Uxn × (Nat × Nat) :=
  let r0 := u.srcPO1
  if r0.1.m2 then
    let r1 := r0.1.srcPO1
    (r1.1, (r0.2, r1.2))
  else
    (r0.1, (r0.2, o.2))

/-- `self.GET(self.x)`. -/
def Uxn.GETx (u : Uxn) : Uxn :=
  let r := u.GETv u.x
  { r.1 with x := r.2 }

/-- `self.GET(self.y)`. -/
def Uxn.GETy (u : Uxn) : Uxn :=
  let r := u.GETv u.y
  { r.1 with y := r.2 }

/-- `self.GET(self.z)`. -/
def Uxn.GETz (u : Uxn) : Uxn :=
  let r := u.GETv u.z
  { r.1 with z := r.2 }

/-- `Uxn.PUT`: `self.src.PU1(i[0]); if self.m2: self.src.PU1(i[1])`. -/
def Uxn.PUT (u : Uxn) (i : Nat × Nat) : Uxn :=
  let u1 := u.srcPU1 i.1
  if u1.m2 then u1.srcPU1 i.2 else u1

/-- `Uxn.DEI` for `emu = None`: `o[0] = 0; if self.m2: o[1] = 0; self.PUT(o)`,
with `o` being the register `self.x`. -/
def Uxn.DEIop (u : Uxn) : Uxn :=
  let xv : Nat × Nat := (0, if u.m2 then 0 else u.x.2)
  let u1 := { u with x := xv }
  u1.PUT xv

/-- `Uxn.PEK`: `o[0] = self.ram[i & 0xffff]; if self.m2: o[1] = self.ram[(i+1) & m];
self.PUT(o)` with `o = self.x`; `m` is passed as the modulus (`mask + 1`). -/
def Uxn.PEK (u : Uxn) (i : Nat) (m : Nat) : Uxn :=
  let o0 := u.ram (i % 65536)
  let xv : Nat × Nat := if u.m2 then (o0, u.ram ((i + 1) % m)) else (o0, u.x.2)
  let u1 := { u with x := xv }
  u1.PUT xv

/-- `Uxn.POK`: `self.ram[i & 0xffff] = j[0]; if self.m2: self.ram[(i+1) & m] = j[1]`;
the stored values are not masked by the source, so the writes are checked. -/
def Uxn.POK (u : Uxn) (i : Nat) (j : Nat × Nat) (m : Nat) : Option Uxn := do
  let r1 ← ramSet u.ram (i % 65536) j.1
  if u.m2 then
    let r2 ← ramSet r1 ((i + 1) % m) j.2
    some { u with ram := r2 }
  else
    some { u with ram := r1 }

/-- `Uxn.k`: `if self.mk: self.src.ptr = self.src.ptrk`. -/
def Uxn.kp (u : Uxn) : Uxn :=
  if u.mkFlag then u.setSrc { u.getSrc with ptr := u.getSrc.ptrk } else u

/-- The decode phase of `Uxn.step`, run right after the instruction byte
`ins` has been fetched: advance `pc` mod 65536, set the three mode bits
from bits 5..7 of `ins`, select `src`/`dst`, and if the keep bit is set
snapshot `src.ptr` into `src.ptrk`. -/
def Uxn.decode (u0 : Uxn) (ins : Nat) : Uxn :=
  let u1 : Uxn :=
    { u0 with pc := (u0.pc + 1) % 65536,
              m2 := ins &&& 0x20 != 0,
              srcIsRst := ins &&& 0x40 != 0,
              mkFlag := ins &&& 0x80 != 0 }
  if u1.mkFlag then u1.setSrc { u1.getSrc with ptrk := u1.getSrc.ptr } else u1

/-- The dispatch phase of `Uxn.step`: the `if`/`elif` chain on
`op = ins & 0x1f` (and, in the `op = 0` column, on the full byte),
returning the final state paired with the value Python `step` returns
(the instruction byte, 0 for `BRK`). -/
def Uxn.dispatch (u : Uxn) (ins : Nat) : Option (Uxn × Nat) :=
  if ins &&& 0x1f = 0x00 then
    if ins = 0x00 then some (u, ins)                  -- BRK
    else if ins = 0x20 then                           -- JCI
      let r := u.srcPO1
      if r.2 ≠ 0 then do
        let u2 ← r.1.JMI
        some (u2, ins)
      else some ({ r.1 with pc := (r.1.pc + 2) % 65536 }, ins)
    else if ins = 0x40 then do                        -- JMI
      let u2 ← u.JMI
      some (u2, ins)
    else if ins = 0x60 then do                        -- JSI
      let u2 := u.dstPU2 (u.pc + 2)
      let u3 ← u2.JMI
      some (u3, ins)
    else if ins = 0x80 then                           -- LIT
      let u2 := u.srcPU1 (u.ram u.pc)
      some ({ u2 with pc := (u2.pc + 1) % 65536 }, ins)
    else if ins = 0xa0 then                           -- LI2
      let u2 := u.srcPU1 (u.ram u.pc)
      let u3 : Uxn := { u2 with pc := (u2.pc + 1) % 65536 }
      let u4 := u3.srcPU1 (u3.ram u3.pc)
      some ({ u4 with pc := (u4.pc + 1) % 65536 }, ins)
    else if ins = 0xc0 then                           -- source comment: L2r
      let u2 := u.dstPU1 (u.ram u.pc)
      some ({ u2 with pc := (u2.pc + 1) % 65536 }, ins)
    else if ins = 0xe0 then                           -- source comment: LIr
      let u2 := u.dstPU1 (u.ram u.pc)
      let u3 : Uxn := { u2 with pc := (u2.pc + 1) % 65536 }
      let u4 := u3.dstPU1 (u3.ram u3.pc)
      some ({ u4 with pc := (u4.pc + 1) % 65536 }, ins)
    else some (u, ins)
  else if ins &&& 0x1f = 0x01 then                    -- INC
    let r := u.POx
    some ((r.1.kp).PUx ((r.2 + 1) % 65536), ins)
  else if ins &&& 0x1f = 0x02 then                    -- POP
    let r := u.POx
    some (r.1.kp, ins)
  else if ins &&& 0x1f = 0x03 then                    -- NIP
    let u2 := u.GETx
    let r := u2.POx
    let u3 := r.1.kp
    some (u3.PUT u3.x, ins)
  else if ins &&& 0x1f = 0x04 then                    -- SWP
    let u2 := (u.GETx).GETy
    let u3 := u2.kp
    let u4 := u3.PUT u3.x
    some (u4.PUT u4.y, ins)
  else if ins &&& 0x1f = 0x05 then                    -- ROT
    let u2 := ((u.GETx).GETy).GETz
    let u3 := u2.kp
    let u4 := u3.PUT u3.y
    let u5 := u4.PUT u4.x
    some (u5.PUT u5.z, ins)
  else if ins &&& 0x1f = 0x06 then                    -- DUP
    let u2 := u.GETx
    let u3 := u2.kp
    let u4 := u3.PUT u3.x
    some (u4.PUT u4.x, ins)
  else if ins &&& 0x1f = 0x07 then                    -- OVR
    let u2 := (u.GETx).GETy
    let u3 := u2.kp
    let u4 := u3.PUT u3.y
    let u5 := u4.PUT u4.x
    some (u5.PUT u5.y, ins)
  else if ins &&& 0x1f = 0x08 then                    -- EQU
    let ra := u.POx
    let rb := ra.1.POx
    let u3 := rb.1.kp
    some (u3.srcPU1 (if rb.2 = ra.2 then 1 else 0), ins)
  else if ins &&& 0x1f = 0x09 then                    -- NEQ
    let ra := u.POx
    let rb := ra.1.POx
    let u3 := rb.1.kp
    some (u3.srcPU1 (if rb.2 ≠ ra.2 then 1 else 0), ins)
  else if ins &&& 0x1f = 0x0a then                    -- GTH
    let ra := u.POx
    let rb := ra.1.POx
    let u3 := rb.1.kp
    some (u3.srcPU1 (if rb.2 > ra.2 then 1 else 0), ins)
  else if ins &&& 0x1f = 0x0b then                    -- LTH
    let ra := u.POx
    let rb := ra.1.POx
    let u3 := rb.1.kp
    some (u3.srcPU1 (if rb.2 < ra.2 then 1 else 0), ins)
  else if ins &&& 0x1f = 0x0c then                    -- JMP
    let ra := u.POx
    some ((ra.1.kp).JMP ra.2, ins)
  else if ins &&& 0x1f = 0x0d then                    -- JCN
    let ra := u.POx
    let rb := ra.1.srcPO1
    let u3 := rb.1.kp
    some (if rb.2 ≠ 0 then (u3.JMP ra.2, ins) else (u3, ins))
  else if ins &&& 0x1f = 0x0e then                    -- JSR
    let ra := u.POx
    let u3 := ra.1.kp
    let u4 := u3.dstPU2 u3.pc
    some (u4.JMP ra.2, ins)
  else if ins &&& 0x1f = 0x0f then                    -- STH
    let u2 := u.GETx
    let u3 := u2.kp
    let u4 := u3.dstPU1 u3.x.1
    some (if u4.m2 then u4.dstPU1 u4.x.2 else u4, ins)
  else if ins &&& 0x1f = 0x10 then                    -- LDZ
    let ra := u.srcPO1
    some ((ra.1.kp).PEK ra.2 256, ins)
  else if ins &&& 0x1f = 0x11 then                    -- STZ
    let ra := u.srcPO1
    let u2 := ra.1.GETy
    let u3 := u2.kp
    do
      let u4 ← u3.POK ra.2 u3.y 256
      some (u4, ins)
  else if ins &&& 0x1f = 0x12 then                    -- LDR
    let ra := u.srcPO1
    let u3 := ra.1.kp
    let addr := (((u3.pc : Int) + Uxn.sig ra.2) % 65536).toNat
    some (u3.PEK addr 65536, ins)
  else if ins &&& 0x1f = 0x13 then                    -- STR
    let ra := u.srcPO1
    let u2 := ra.1.GETy
    let u3 := u2.kp
    let addr := (((u3.pc : Int) + Uxn.sig ra.2) % 65536).toNat
    do
      let u4 ← u3.POK addr u3.y 65536
      some (u4, ins)
  else if ins &&& 0x1f = 0x14 then                    -- LDA
    let ra := u.srcPO2
    some ((ra.1.kp).PEK ra.2 65536, ins)
  else if ins &&& 0x1f = 0x15 then                    -- STA
    let ra := u.srcPO2
    let u2 := ra.1.GETy
    let u3 := u2.kp
    do
      let u4 ← u3.POK ra.2 u3.y 65536
      some (u4, ins)
  else if ins &&& 0x1f = 0x16 then                    -- DEI (emu = None)
    let ra := u.srcPO1
    some ((ra.1.kp).DEIop, ins)
  else if ins &&& 0x1f = 0x17 then                    -- DEO (emu = None: no-op)
    let ra := u.srcPO1
    let u2 := ra.1.GETy
    some (u2.kp, ins)
  else if ins &&& 0x1f = 0x18 then                    -- ADD
    let ra := u.POx
    let rb := ra.1.POx
    some ((rb.1.kp).PUx ((rb.2 + ra.2) % 65536), ins)
  else if ins &&& 0x1f = 0x19 then                    -- SUB
    let ra := u.POx
    let rb := ra.1.POx
    some ((rb.1.kp).PUx ((((rb.2 : Int) - (ra.2 : Int)) % 65536).toNat), ins)
  else if ins &&& 0x1f = 0x1a then                    -- MUL
    let ra := u.POx
    let rb := ra.1.POx
    some ((rb.1.kp).PUx ((rb.2 * ra.2) % 65536), ins)
  else if ins &&& 0x1f = 0x1b then                    -- DIV
    let ra := u.POx
    let rb := ra.1.POx
    some ((rb.1.kp).PUx (if ra.2 ≠ 0 then (rb.2 / ra.2) % 65536 else 0), ins)
  else if ins &&& 0x1f = 0x1c then                    -- AND
    let ra := u.POx
    let rb := ra.1.POx
    some ((rb.1.kp).PUx (rb.2 &&& ra.2), ins)
  else if ins &&& 0x1f = 0x1d then                    -- ORA
    let ra := u.POx
    let rb := ra.1.POx
    some ((rb.1.kp).PUx (rb.2 ||| ra.2), ins)
  else if ins &&& 0x1f = 0x1e then                    -- EOR
    let ra := u.POx
    let rb := ra.1.POx
    some ((rb.1.kp).PUx (rb.2 ^^^ ra.2), ins)
  else if ins &&& 0x1f = 0x1f then                    -- SFT
    let ra := u.srcPO1
    let rb := ra.1.POx
    let u3 := rb.1.kp
    some (u3.PUx (((rb.2 >>> (ra.2 &&& 0xf)) <<< ((ra.2 >>> 4) &&& 0xf)) % 65536), ins)
  else some (u, ins)

/-- The body of `Uxn.step` after the fetch: decode, then dispatch. -/
def Uxn.stepIns (u0 : Uxn) (ins : Nat) : Option (Uxn × Nat) :=
  (u0.decode ins).dispatch ins

/-- `Uxn.step`: fetch the instruction byte at `pc` (a checked bytearray read)
and execute it. -/
def Uxn.step (u : Uxn) : Option (Uxn × Nat) := do
  let ins ← ramGet u.ram u.pc
  u.stepIns ins

/-- The `while steps > 0 and self.step():` loop of `Uxn.eval`, with the
remaining step budget as fuel. -/
def evalLoop : Nat → Uxn → Option Uxn
  | 0, u => some u
  | steps + 1, u => do
    let r ← u.step
    if r.2 ≠ 0 then evalLoop steps r.1 else some r.1

/-- `Uxn.eval`: set `pc := a` and run the step loop with budget `0x80000`. -/
def Uxn.eval (u : Uxn) (a : Nat) : Option Uxn :=
  evalLoop 0x80000 { u with pc := a }

/-- `peek16` of src/devices/console.py:
`return (dev[addr] << 8) | dev[addr + 1]`. -/
def peek16 (dev : Nat → Nat) (addr : Nat) : Nat :=
  (dev addr <<< 8) ||| dev (addr + 1)

/-- `Console.input` of src/devices/console.py: read the console vector from
`dev[0x10..0x11]`, store the character and kind into `dev[0x12]` and
`dev[0x17]` (masked `& 0xff` by the source), then re-enter the VM at the
vector if and only if it is nonzero. -/
def Console.input (u : Uxn) (char type_ : Nat) : Option Uxn :=
  let vec := peek16 u.dev 0x10
  let u1 : Uxn := { u with dev := updFn u.dev 0x12 (char % 256) }
  let u2 : Uxn := { u1 with dev := updFn u1.dev 0x17 (type_ % 256) }
  if vec ≠ 0 then u2.eval vec else some u2

/-- A freshly constructed `Stack` (all cells zero, both pointers zero). -/
def initStack : Stack :=
  { cells := fun _ => 0, ptr := 0, ptrk := 0 }

/-- A freshly constructed `Uxn()` (all memories zero, `pc = 0`,
registers `[0, 0]`, `src = wst`). -/
def initUxn : Uxn :=
  { dev := fun _ => 0, wst := initStack, rst := initStack,
    ram := fun _ => 0, pc := 0, m2 := false, mkFlag := false,
    srcIsRst := false, x := (0, 0), y := (0, 0), z := (0, 0) }

/-- Byte array holding the list `l` starting at index 0, zero elsewhere. -/
def listCells (l : List Nat) : Nat → Nat :=
  fun j => if h : j < l.length then l.get ⟨j, h⟩ else 0

/-- Main memory holding the ROM `rom` starting at the reset address `0x100`,
zero elsewhere (the effect of `Uxn.load`). -/
def romRam (rom : List Nat) : Nat → Nat :=
  fun i => if h : 0x100 ≤ i ∧ i - 0x100 < rom.length then rom.get ⟨i - 0x100, h.2⟩ else 0

/-- State after `Uxn().load(rom)` with `pc` set to the reset address. -/
def romState (rom : List Nat) : Uxn :=
  { initUxn with ram := romRam rom, pc := 0x100 }

/-- All cells of a `Stack` are bytes. -/
def StackBytes (s : Stack) : Prop := ∀ i, s.cells i < 256

/-- Every memory cell of the VM is a byte (true of any state the Python
class can actually be in, since all its arrays are bytearrays). -/
def Bytes (u : Uxn) : Prop :=
  StackBytes u.wst ∧ StackBytes u.rst ∧ (∀ i, u.ram i < 256) ∧ (∀ i, u.dev i < 256)

/-- Number of bytes an instruction with base opcode `op` pops from the
`src` stack (short mode `m2`). -/
def popBytes (op : Nat) (m2 : Bool) : Nat :=
  let w := if m2 then 2 else 1
  if op = 0x01 then w
  else if op = 0x02 then w
  else if op = 0x03 then 2 * w
  else if op = 0x04 then 2 * w
  else if op = 0x05 then 3 * w
  else if op = 0x06 then w
  else if op = 0x07 then 2 * w
  else if op ≤ 0x0b then 2 * w        -- EQU NEQ GTH LTH
  else if op = 0x0f then w            -- STH
  else if op = 0x10 then 1            -- LDZ
  else if op = 0x11 then 1 + w        -- STZ
  else if op = 0x12 then 1            -- LDR
  else if op = 0x13 then 1 + w        -- STR
  else if op = 0x14 then 2            -- LDA
  else if op = 0x15 then 2 + w        -- STA
  else if op = 0x16 then 1            -- DEI
  else if op = 0x17 then 1 + w        -- DEO
  else if op ≤ 0x1e then 2 * w        -- ADD SUB MUL DIV AND ORA EOR
  else 1 + w                          -- SFT

/-- Number of bytes an instruction with base opcode `op` pushes onto the
`src` stack (short mode `m2`). -/
def pushBytes (op : Nat) (m2 : Bool) : Nat :=
  let w := if m2 then 2 else 1
  if op = 0x01 then w
  else if op = 0x02 then 0
  else if op = 0x03 then w
  else if op = 0x04 then 2 * w
  else if op = 0x05 then 3 * w
  else if op = 0x06 then 2 * w
  else if op = 0x07 then 3 * w
  else if op ≤ 0x0b then 1            -- EQU NEQ GTH LTH push one byte
  else if op = 0x0f then 0            -- STH pushes to dst only
  else if op = 0x10 then w            -- LDZ
  else if op = 0x11 then 0            -- STZ
  else if op = 0x12 then w            -- LDR
  else if op = 0x13 then 0            -- STR
  else if op = 0x14 then w            -- LDA
  else if op = 0x15 then 0            -- STA
  else if op = 0x16 then w            -- DEI
  else if op = 0x17 then 0            -- DEO
  else if op ≤ 0x1e then w            -- ADD SUB MUL DIV AND ORA EOR
  else w                              -- SFT

/-- One 8- or 16-bit push or pop, for reasoning about arbitrary sequences
of the four `Stack` operations. -/
inductive StackOp where
  | pu1 : Nat → StackOp
  | pu2 : Nat → StackOp
  | po1 : StackOp
  | po2 : StackOp

/-- Run a sequence of stack operations, collecting the popped values. -/
def runOps : List StackOp → Stack → Stack × List Nat
  | [], s => (s, [])
  | o :: rest, s =>
    let r : Stack × List Nat :=
      match o with
      | .pu1 v => (s.PU1 v, [])
      | .pu2 v => (s.PU2 v, [])
      | .po1 => ((s.PO1).1, [(s.PO1).2])
      | .po2 => ((s.PO2).1, [(s.PO2).2])
    let rr := runOps rest r.1
    (rr.1, r.2 ++ rr.2)

/-- Stack whose bottom cells are `0x11 0x22 0x33 0x44` with `ptr = 4`:
two big-endian shorts, `b = 0x1122` below `a = 0x3344`. -/
def swpStack : Stack :=
  { cells := listCells [0x11, 0x22, 0x33, 0x44], ptr := 4, ptrk := 0 }

/-- State about to execute `SWP2` (instruction byte 0x24) on `swpStack`. -/
def swpState : Uxn :=
  { romState [0x24] with wst := swpStack }

/-- State about to execute instruction `0xc0` with immediate byte `0x42`. -/
def litrState : Uxn := romState [0xc0, 0x42]

/-- State about to execute `JMI` (0x40) fetched at address `0xfffe`, so that
the immediate operand read touches `ram[0xffff]` and `ram[0x10000]`. -/
def jmiEdgeState : Uxn :=
  { initUxn with ram := updFn (fun _ => 0) 0xfffe 0x40, pc := 0xfffe }

/-- State about to execute `POP` (0x02) from the reset state. -/
def popState : Uxn := romState [0x02]

/-- Stack holding bytes `0x03 0x04` with `ptr = 2` (the spec's keep-mode
`ADDk` scenario). -/
def addkStack : Stack :=
  { cells := listCells [0x03, 0x04], ptr := 2, ptrk := 0 }

/-- State about to execute `ADDk` (instruction byte 0x98) on `addkStack`. -/
def addkState : Uxn :=
  { romState [0x98] with wst := addkStack }

/-- Machine whose device page holds `0x99` everywhere, to witness that
`DEI` ignores `dev` when no emulator frame is attached. -/
def deiWitState : Uxn :=
  { initUxn with dev := fun _ => 0x99 }

/-- The keep-mode snapshot of `Uxn.step`: `self.src.ptrk = self.src.ptr`
(the spec calls this `src.snapshot()`). -/
def Stack.snapshot (s : Stack) : Stack := { s with ptrk := s.ptr }

/-- The keep-mode restore of `Uxn.k`: `self.src.ptr = self.src.ptrk`
(the spec calls this `src.restore()`). -/
def Stack.restore (s : Stack) : Stack := { s with ptr := s.ptrk }

/-- `a` consecutive `PO1` pops (the pop phase of an instruction: every
`POx`/`PO2`/`GET` pop is a chain of `PO1` calls). -/
def popN : Stack → Nat → Stack
  | s, 0 => s
  | s, a + 1 => popN (s.PO1).1 a

/-- The values returned by `a` consecutive `PO1` pops. -/
def popVals : Stack → Nat → List Nat
  | _, 0 => []
  | s, a + 1 => (s.PO1).2 :: popVals (s.PO1).1 a

/-- Push the values of `vs` in order with `PU1` (the push phase of an
instruction: every `PUx`/`PU2`/`PUT` push is a chain of `PU1` calls). -/
def pushList : Stack → List Nat → Stack
  | s, [] => s
  | s, v :: vs => pushList (s.PU1 v) vs

theorem mod65536_lt (x : Nat) : x % 65536 < 65536 := Nat.mod_lt _ (by decide)

theorem mod256_lt (x : Nat) : x % 256 < 256 := Nat.mod_lt _ (by decide)

theorem lor_shl8 (lo hi : Nat) (h : lo < 256) : lo ||| (hi <<< 8) = 256 * hi + lo := by
  have h2 : lo < 2 ^ 8 := by simpa using h
  have h3 := Nat.mul_add_lt_is_or h2 hi
  rw [Nat.shiftLeft_eq, Nat.lor_comm, mul_comm hi (2 ^ 8), ← h3]

theorem shr8_eq_div (v : Nat) : v >>> 8 = v / 256 := by
  rw [Nat.shiftRight_eq_div_pow]

/-- C8. For any short `s < 65536` and any starting stack state (any `ptr`,
any cells), `push16` then `pop16` returns `s`; `push16` then `pop8` returns
the low byte `s & 0xff`, and one further `pop8` returns the high byte
`(s >> 8) & 0xff`. -/
theorem c8_short_encoding (s : Stack) (v : Nat) (h : v < 65536) :
    ((s.PU2 v).PO2).2 = v ∧
    ((s.PU2 v).PO1).2 = v % 256 ∧
    (((s.PU2 v).PO1).1.PO1).2 = (v >>> 8) % 256 := by
  have hlo : ((s.PU2 v).PO1).2 = v % 256 := by
    simp only [Stack.PU2, Stack.PU1, Stack.PO1, updFn]
    rw [if_pos (by omega)]
  have hhi : (((s.PU2 v).PO1).1.PO1).2 = (v >>> 8) % 256 := by
    simp only [Stack.PU2, Stack.PU1, Stack.PO1, updFn]
    rw [if_neg (by omega), if_pos (by omega)]
  refine ⟨?_, hlo, hhi⟩
  have hPO2 : ((s.PU2 v).PO2).2 = ((s.PU2 v).PO1).2 ||| ((((s.PU2 v).PO1).1.PO1).2 <<< 8) := rfl
  rw [hPO2, hlo, hhi, shr8_eq_div]
  have hdiv : v / 256 < 256 := by omega
  rw [Nat.mod_eq_of_lt hdiv, lor_shl8 _ _ (mod256_lt v)]
  omega

/-- C8 witness: instantiation at `s = initStack`, `v = 0x1234`. -/
theorem c8_short_encoding_witness :
    (0x1234 : Nat) < 65536 ∧
    ((initStack.PU2 0x1234).PO2).2 = 0x1234 ∧
    ((initStack.PU2 0x1234).PO1).2 = 0x1234 % 256 ∧
    (((initStack.PU2 0x1234).PO1).1.PO1).2 = (0x1234 >>> 8) % 256 :=
  ⟨by decide, c8_short_encoding initStack 0x1234 (by decide)⟩

theorem PU1_congr (s t : Stack) (v : Nat) (hc : s.cells = t.cells)
    (hp : s.ptr % 256 = t.ptr % 256) :
    (s.PU1 v).cells = (t.PU1 v).cells ∧ (s.PU1 v).ptr % 256 = (t.PU1 v).ptr % 256 := by
  constructor
  · simp only [Stack.PU1, hc, hp]
  · simp only [Stack.PU1]; omega

theorem PU2_congr (s t : Stack) (v : Nat) (hc : s.cells = t.cells)
    (hp : s.ptr % 256 = t.ptr % 256) :
    (s.PU2 v).cells = (t.PU2 v).cells ∧ (s.PU2 v).ptr % 256 = (t.PU2 v).ptr % 256 := by
  have h1 := PU1_congr s t (v >>> 8) hc hp
  exact PU1_congr _ _ v h1.1 h1.2

theorem PO1_congr (s t : Stack) (hc : s.cells = t.cells)
    (hp : s.ptr % 256 = t.ptr % 256) :
    ((s.PO1).1.cells = (t.PO1).1.cells ∧ (s.PO1).1.ptr % 256 = (t.PO1).1.ptr % 256) ∧
    (s.PO1).2 = (t.PO1).2 := by
  refine ⟨⟨hc, by simp only [Stack.PO1]; omega⟩, ?_⟩
  simp only [Stack.PO1, hc]
  congr 1
  omega

theorem PO2_congr (s t : Stack) (hc : s.cells = t.cells)
    (hp : s.ptr % 256 = t.ptr % 256) :
    ((s.PO2).1.cells = (t.PO2).1.cells ∧ (s.PO2).1.ptr % 256 = (t.PO2).1.ptr % 256) ∧
    (s.PO2).2 = (t.PO2).2 := by
  have h1 := PO1_congr s t hc hp
  have h2 := PO1_congr _ _ h1.1.1 h1.1.2
  refine ⟨h2.1, ?_⟩
  simp only [Stack.PO2]
  rw [h1.2, h2.2]

theorem runOps_congr (ops : List StackOp) (s t : Stack) (hc : s.cells = t.cells)
    (hp : s.ptr % 256 = t.ptr % 256) :
    (runOps ops s).1.cells = (runOps ops t).1.cells ∧
    (runOps ops s).1.ptr % 256 = (runOps ops t).1.ptr % 256 ∧
    (runOps ops s).2 = (runOps ops t).2 := by
  induction ops generalizing s t with
  | nil => exact ⟨hc, hp, rfl⟩
  | cons o rest ih =>
    cases o with
    | pu1 v =>
      have h := PU1_congr s t v hc hp
      have hr := ih _ _ h.1 h.2
      simpa only [runOps] using ⟨hr.1, hr.2.1, by rw [hr.2.2]⟩
    | pu2 v =>
      have h := PU2_congr s t v hc hp
      have hr := ih _ _ h.1 h.2
      simpa only [runOps] using ⟨hr.1, hr.2.1, by rw [hr.2.2]⟩
    | po1 =>
      have h := PO1_congr s t hc hp
      have hr := ih _ _ h.1.1 h.1.2
      simpa only [runOps] using ⟨hr.1, hr.2.1, by rw [h.2, hr.2.2]⟩
    | po2 =>
      have h := PO2_congr s t hc hp
      have hr := ih _ _ h.1.1 h.1.2
      simpa only [runOps] using ⟨hr.1, hr.2.1, by rw [h.2, hr.2.2]⟩

/-- C10. Every `Stack` cell access masks the pointer at use even though the
pointer is stored unreduced, so any sequence of `PU1`/`PU2`/`PO1`/`PO2`
started from `ptr` and from `ptr % 256` writes the same cells and returns
the same popped values. -/
theorem c10_ptr_masked_at_use (ops : List StackOp) (s : Stack) :
    (runOps ops s).1.cells = (runOps ops { s with ptr := s.ptr % 256 }).1.cells ∧
    (runOps ops s).2 = (runOps ops { s with ptr := s.ptr % 256 }).2 := by
  have h := runOps_congr ops s { s with ptr := s.ptr % 256 } rfl (by simp [Int.emod_emod_of_dvd])
  exact ⟨h.1, h.2.2⟩

theorem setSel_pc (u : Uxn) (b : Bool) (s : Stack) : (u.setSel b s).pc = u.pc := by
  cases b <;> rfl

theorem setSel_ram (u : Uxn) (b : Bool) (s : Stack) : (u.setSel b s).ram = u.ram := by
  cases b <;> rfl

theorem setSel_dev (u : Uxn) (b : Bool) (s : Stack) : (u.setSel b s).dev = u.dev := by
  cases b <;> rfl

theorem sb_PU1 (s : Stack) (v : Nat) (h : StackBytes s) : StackBytes (s.PU1 v) := by
  intro i
  simp only [Stack.PU1, updFn]
  split
  · exact mod256_lt v
  · exact h i

theorem sb_PU2 (s : Stack) (v : Nat) (h : StackBytes s) : StackBytes (s.PU2 v) :=
  sb_PU1 _ _ (sb_PU1 _ _ h)

theorem sb_PO1 (s : Stack) (h : StackBytes s) : StackBytes ((s.PO1).1) := h

theorem sb_PO2 (s : Stack) (h : StackBytes s) : StackBytes ((s.PO2).1) := h

theorem sb_mk (c : Nat → Nat) (p k : Int) (h : ∀ i, c i < 256) :
    StackBytes (Stack.mk c p k) := h

theorem sb_sel (u : Uxn) (b : Bool) (h : Bytes u) : StackBytes (u.sel b) := by
  cases b
  · exact h.1
  · exact h.2.1

theorem bytes_setSel (u : Uxn) (b : Bool) (s : Stack) (h : Bytes u)
    (hs : StackBytes s) : Bytes (u.setSel b s) := by
  cases b
  · exact ⟨hs, h.2.1, h.2.2⟩
  · exact ⟨h.1, hs, h.2.2⟩

theorem bytes_decode (u : Uxn) (pc : Nat) (m2 mk2 rb : Bool) (h : Bytes u) :
    Bytes { u with pc := pc, m2 := m2, mkFlag := mk2, srcIsRst := rb } := h

theorem bytes_srcPU1 (u : Uxn) (v : Nat) (h : Bytes u) : Bytes (u.srcPU1 v) :=
  bytes_setSel _ _ _ h (sb_PU1 _ _ (sb_sel _ _ h))

theorem bytes_srcPU2 (u : Uxn) (v : Nat) (h : Bytes u) : Bytes (u.srcPU2 v) :=
  bytes_setSel _ _ _ h (sb_PU2 _ _ (sb_sel _ _ h))

theorem bytes_dstPU1 (u : Uxn) (v : Nat) (h : Bytes u) : Bytes (u.dstPU1 v) :=
  bytes_setSel _ _ _ h (sb_PU1 _ _ (sb_sel _ _ h))

theorem bytes_dstPU2 (u : Uxn) (v : Nat) (h : Bytes u) : Bytes (u.dstPU2 v) :=
  bytes_setSel _ _ _ h (sb_PU2 _ _ (sb_sel _ _ h))

theorem bytes_srcPO1 (u : Uxn) (h : Bytes u) : Bytes ((u.srcPO1).1) :=
  bytes_setSel _ _ _ h (sb_PO1 _ (sb_sel _ _ h))

theorem bytes_srcPO2 (u : Uxn) (h : Bytes u) : Bytes ((u.srcPO2).1) :=
  bytes_setSel _ _ _ h (sb_PO2 _ (sb_sel _ _ h))

theorem bytes_POx (u : Uxn) (h : Bytes u) : Bytes ((u.POx).1) := by
  rw [Uxn.POx]
  split
  · exact bytes_srcPO2 _ h
  · exact bytes_srcPO1 _ h

theorem bytes_PUx (u : Uxn) (v : Nat) (h : Bytes u) : Bytes (u.PUx v) := by
  rw [Uxn.PUx]
  split
  · exact bytes_srcPU2 _ _ h
  · exact bytes_srcPU1 _ _ h

theorem bytes_withx (u : Uxn) (v : Nat × Nat) (h : Bytes u) :
    Bytes { u with x := v } := h

theorem bytes_withy (u : Uxn) (v : Nat × Nat) (h : Bytes u) :
    Bytes { u with y := v } := h

theorem bytes_withz (u : Uxn) (v : Nat × Nat) (h : Bytes u) :
    Bytes { u with z := v } := h

theorem bytes_withpc (u : Uxn) (p : Nat) (h : Bytes u) :
    Bytes { u with pc := p } := h

theorem bytes_GETx (u : Uxn) (h : Bytes u) : Bytes (u.GETx) := by
  rw [Uxn.GETx, Uxn.GETv]
  split
  · exact bytes_withx _ _ (bytes_srcPO1 _ (bytes_srcPO1 _ h))
  · exact bytes_withx _ _ (bytes_srcPO1 _ h)

theorem bytes_GETy (u : Uxn) (h : Bytes u) : Bytes (u.GETy) := by
  rw [Uxn.GETy, Uxn.GETv]
  split
  · exact bytes_withy _ _ (bytes_srcPO1 _ (bytes_srcPO1 _ h))
  · exact bytes_withy _ _ (bytes_srcPO1 _ h)

theorem bytes_GETz (u : Uxn) (h : Bytes u) : Bytes (u.GETz) := by
  rw [Uxn.GETz, Uxn.GETv]
  split
  · exact bytes_withz _ _ (bytes_srcPO1 _ (bytes_srcPO1 _ h))
  · exact bytes_withz _ _ (bytes_srcPO1 _ h)

theorem bytes_PUT (u : Uxn) (i : Nat × Nat) (h : Bytes u) : Bytes (u.PUT i) := by
  rw [Uxn.PUT]
  split
  · exact bytes_srcPU1 _ _ (bytes_srcPU1 _ _ h)
  · exact bytes_srcPU1 _ _ h

theorem bytes_kp (u : Uxn) (h : Bytes u) : Bytes (u.kp) := by
  rw [Uxn.kp]
  split
  · exact bytes_setSel _ _ _ h (sb_mk _ _ _ (sb_sel _ _ h))
  · exact h

theorem bytes_DEIop (u : Uxn) (h : Bytes u) : Bytes (u.DEIop) :=
  bytes_PUT _ _ (bytes_withx _ _ h)

theorem bytes_PEK (u : Uxn) (i m : Nat) (h : Bytes u) : Bytes (u.PEK i m) :=
  bytes_PUT _ _ (bytes_withx _ _ h)

theorem ramSet_bytes (r : Nat → Nat) (i v : Nat) (r2 : Nat → Nat)
    (hs : ramSet r i v = some r2) (h : ∀ j, r j < 256) : ∀ j, r2 j < 256 := by
  rw [ramSet] at hs
  split at hs
  · cases hs
    intro j
    simp only [updFn]
    split
    · omega
    · exact h j
  · cases hs

theorem bytes_POK (u : Uxn) (i : Nat) (j : Nat × Nat) (m : Nat) (u2 : Uxn)
    (hs : u.POK i j m = some u2) (h : Bytes u) : Bytes u2 ∧ u2.pc = u.pc := by
  rw [Uxn.POK] at hs
  rcases hr1 : ramSet u.ram (i % 65536) j.1 with _ | r1 <;> rw [hr1] at hs
  · cases hs
  simp only [Option.bind_eq_bind, Option.some_bind] at hs
  split at hs
  · rcases hr2 : ramSet r1 ((i + 1) % m) j.2 with _ | r2 <;> rw [hr2] at hs
    · cases hs
    simp only [Option.bind_eq_bind, Option.some_bind, Option.some.injEq] at hs
    subst hs
    exact ⟨⟨h.1, h.2.1, ramSet_bytes _ _ _ _ hr2 (ramSet_bytes _ _ _ _ hr1 h.2.2.1),
      h.2.2.2⟩, rfl⟩
  · simp only [Option.some.injEq] at hs
    subst hs
    exact ⟨⟨h.1, h.2.1, ramSet_bytes _ _ _ _ hr1 h.2.2.1, h.2.2.2⟩, rfl⟩

theorem bytes_JMP (u : Uxn) (i : Nat) (h : Bytes u) :
    Bytes (u.JMP i) ∧ (u.JMP i).pc < 65536 := by
  rw [Uxn.JMP]
  split
  · exact ⟨h, mod65536_lt i⟩
  · refine ⟨h, ?_⟩
    change (((u.pc : Int) + Uxn.sig i) % 65536).toNat < 65536
    omega

theorem bytes_JMI (u : Uxn) (u2 : Uxn) (hs : u.JMI = some u2) (h : Bytes u) :
    Bytes u2 ∧ u2.pc < 65536 := by
  rw [Uxn.JMI] at hs
  rcases h1 : ramGet u.ram u.pc with _ | hi <;> rw [h1] at hs
  · cases hs
  rcases h2 : ramGet u.ram (u.pc + 1) with _ | lo <;> rw [h2] at hs
  · cases hs
  simp only [Option.bind_eq_bind, Option.some_bind, Option.some.injEq] at hs
  subst hs
  exact ⟨h, mod65536_lt _⟩

theorem pc_setSel (u : Uxn) (b : Bool) (s : Stack) : (u.setSel b s).pc = u.pc :=
  setSel_pc u b s

theorem pc_srcPO1 (u : Uxn) : ((u.srcPO1).1).pc = u.pc := setSel_pc _ _ _

theorem pc_srcPO2 (u : Uxn) : ((u.srcPO2).1).pc = u.pc := setSel_pc _ _ _

theorem pc_POx (u : Uxn) : ((u.POx).1).pc = u.pc := by
  rw [Uxn.POx]; split
  · exact pc_srcPO2 u
  · exact pc_srcPO1 u

theorem pc_srcPU1 (u : Uxn) (v : Nat) : (u.srcPU1 v).pc = u.pc := setSel_pc _ _ _

theorem pc_srcPU2 (u : Uxn) (v : Nat) : (u.srcPU2 v).pc = u.pc := setSel_pc _ _ _

theorem pc_dstPU1 (u : Uxn) (v : Nat) : (u.dstPU1 v).pc = u.pc := setSel_pc _ _ _

theorem pc_dstPU2 (u : Uxn) (v : Nat) : (u.dstPU2 v).pc = u.pc := setSel_pc _ _ _

theorem pc_PUx (u : Uxn) (v : Nat) : (u.PUx v).pc = u.pc := by
  rw [Uxn.PUx]; split
  · exact pc_srcPU2 u v
  · exact pc_srcPU1 u v

theorem pc_GETx (u : Uxn) : (u.GETx).pc = u.pc := by
  rw [Uxn.GETx, Uxn.GETv]; split
  · exact (pc_srcPO1 _).trans (pc_srcPO1 _)
  · exact pc_srcPO1 _

theorem pc_GETy (u : Uxn) : (u.GETy).pc = u.pc := by
  rw [Uxn.GETy, Uxn.GETv]; split
  · exact (pc_srcPO1 _).trans (pc_srcPO1 _)
  · exact pc_srcPO1 _

theorem pc_GETz (u : Uxn) : (u.GETz).pc = u.pc := by
  rw [Uxn.GETz, Uxn.GETv]; split
  · exact (pc_srcPO1 _).trans (pc_srcPO1 _)
  · exact pc_srcPO1 _

theorem pc_PUT (u : Uxn) (i : Nat × Nat) : (u.PUT i).pc = u.pc := by
  rw [Uxn.PUT]; split
  · exact (pc_srcPU1 _ _).trans (pc_srcPU1 _ _)
  · exact pc_srcPU1 _ _

theorem pc_kp (u : Uxn) : (u.kp).pc = u.pc := by
  rw [Uxn.kp]; split
  · exact setSel_pc _ _ _
  · rfl

theorem pc_DEIop (u : Uxn) : (u.DEIop).pc = u.pc := pc_PUT _ _

theorem pc_PEK (u : Uxn) (i m : Nat) : (u.PEK i m).pc = u.pc := pc_PUT _ _

theorem bytes_setSrc (u : Uxn) (s : Stack) (h : Bytes u) (hs : StackBytes s) :
    Bytes (u.setSrc s) :=
  bytes_setSel _ _ _ h hs

theorem sb_getSrc (u : Uxn) (h : Bytes u) : StackBytes u.getSrc := sb_sel _ _ h

theorem bytes_JMP1 (u : Uxn) (i : Nat) (h : Bytes u) : Bytes (u.JMP i) := by
  rw [Uxn.JMP]
  split <;> exact h

theorem pc_JMP_lt (u : Uxn) (i : Nat) : (u.JMP i).pc < 65536 := by
  rw [Uxn.JMP]
  split
  · exact mod65536_lt i
  · change (((u.pc : Int) + Uxn.sig i) % 65536).toNat < 65536
    omega

theorem bytes_snapshot (w : Uxn) (h : Bytes w) :
    Bytes (if w.mkFlag then w.setSrc { w.getSrc with ptrk := w.getSrc.ptr } else w) := by
  split
  · exact bytes_setSrc _ _ h (sb_mk _ _ _ (sb_getSrc _ h))
  · exact h

theorem pc_setSrc (u : Uxn) (s : Stack) : (u.setSrc s).pc = u.pc := setSel_pc _ _ _

theorem pc_snapshot (w : Uxn) :
    (if w.mkFlag then w.setSrc { w.getSrc with ptrk := w.getSrc.ptr } else w).pc = w.pc := by
  split
  · exact pc_setSrc _ _
  · rfl

theorem bytes_decode2 (u : Uxn) (ins : Nat) (h : Bytes u) : Bytes (u.decode ins) := by
  rw [Uxn.decode]
  exact bytes_snapshot _ h

theorem pc_decode (u : Uxn) (ins : Nat) : (u.decode ins).pc = (u.pc + 1) % 65536 := by
  rw [Uxn.decode, pc_snapshot]

theorem pc_decode_lt (u : Uxn) (ins : Nat) : (u.decode ins).pc < 65536 := by
  rw [pc_decode]
  exact mod65536_lt _

section

attribute [local irreducible] Uxn.POx Uxn.PUx Uxn.kp Uxn.srcPU1 Uxn.srcPU2 Uxn.dstPU1 Uxn.dstPU2 Uxn.srcPO1 Uxn.srcPO2 Uxn.GETx Uxn.GETy Uxn.GETz Uxn.PUT Uxn.DEIop Uxn.PEK Uxn.POK Uxn.JMP Uxn.JMI Uxn.setSrc Uxn.getSrc Uxn.setDst Uxn.getDst Uxn.setSel Uxn.sel Uxn.decode Stack.PU1 Stack.PU2 Stack.PO1 Stack.PO2 ramGet ramSet

/-- C4 amended, part 1 (the invariant that does hold). If every `ram`,
`dev`, and stack cell of `u` is a byte and `step` succeeds, then afterwards
`pc` lies in `[0, 65536)` and every `ram` / `dev` / stack cell is still in
`[0, 256)`. (The stack pointers themselves are stored unreduced — see the
counterexample — and are masked modulo 256 only at each use.) -/
theorem c4_width_mask_amended (u : Uxn) (hB : Bytes u) (u1 : Uxn) (n : Nat)
    (hs : u.step = some (u1, n)) : Bytes u1 ∧ u1.pc < 65536 := by
  simp only [Uxn.step, Option.bind_eq_bind] at hs
  obtain ⟨ins, hf, hs⟩ := Option.bind_eq_some.mp hs
  have hins : ins < 256 := by
    rw [ramGet] at hf
    split at hf
    · injection hf with h
      exact h ▸ hB.2.2.1 _
    · cases hf
  have h31 : ins &&& 31 = ins % 32 := by
    have h5 := Nat.and_pow_two_sub_one_eq_mod ins 5
    norm_num at h5
    exact h5
  rw [Uxn.stepIns] at hs
  have hBD : Bytes (u.decode ins) := bytes_decode2 _ _ hB
  have hpcD : (u.decode ins).pc < 65536 := pc_decode_lt _ _
  generalize hDD : u.decode ins = D at hs hBD hpcD
  rw [Uxn.dispatch, h31] at hs
  rcases (show ins = 0x00 ∨ ins = 0x20 ∨ ins = 0x40 ∨ ins = 0x60 ∨ ins = 0x80 ∨
      ins = 0xa0 ∨ ins = 0xc0 ∨ ins = 0xe0 ∨ ins % 32 = 0x01 ∨ ins % 32 = 0x02 ∨
      ins % 32 = 0x03 ∨ ins % 32 = 0x04 ∨ ins % 32 = 0x05 ∨ ins % 32 = 0x06 ∨
      ins % 32 = 0x07 ∨ ins % 32 = 0x08 ∨ ins % 32 = 0x09 ∨ ins % 32 = 0x0a ∨
      ins % 32 = 0x0b ∨ ins % 32 = 0x0c ∨ ins % 32 = 0x0d ∨ ins % 32 = 0x0e ∨
      ins % 32 = 0x0f ∨ ins % 32 = 0x10 ∨ ins % 32 = 0x11 ∨ ins % 32 = 0x12 ∨
      ins % 32 = 0x13 ∨ ins % 32 = 0x14 ∨ ins % 32 = 0x15 ∨ ins % 32 = 0x16 ∨
      ins % 32 = 0x17 ∨ ins % 32 = 0x18 ∨ ins % 32 = 0x19 ∨ ins % 32 = 0x1a ∨
      ins % 32 = 0x1b ∨ ins % 32 = 0x1c ∨ ins % 32 = 0x1d ∨ ins % 32 = 0x1e ∨
      ins % 32 = 0x1f from by omega) with
    hv|hv|hv|hv|hv|hv|hv|hv|hv|hv|hv|hv|hv|hv|hv|hv|hv|hv|hv|hv|hv|hv|hv|hv|hv|
    hv|hv|hv|hv|hv|hv|hv|hv|hv|hv|hv|hv|hv|hv <;>
    first
      | (subst hv
         simp only [Nat.reduceMod, Nat.reduceEqDiff, reduceIte] at hs)
      | simp only [hv, Nat.reduceEqDiff, reduceIte] at hs
  all_goals repeat split at hs
  all_goals
    first
    | -- pure branch: hs : some (TERM, k) = some (u1, n)
      (simp only [Option.some.injEq, Prod.mk.injEq] at hs
       obtain ⟨h1, h2⟩ := hs
       subst h1
       constructor
       · iterate 40 (first | exact hBD | apply bytes_PUx | apply bytes_POx | apply bytes_kp | apply bytes_srcPU1 | apply bytes_srcPU2 | apply bytes_dstPU1 | apply bytes_dstPU2 | apply bytes_srcPO1 | apply bytes_srcPO2 | apply bytes_GETx | apply bytes_GETy | apply bytes_GETz | apply bytes_PUT | apply bytes_DEIop | apply bytes_PEK | apply bytes_JMP1 | apply bytes_setSrc | apply sb_getSrc | apply sb_mk | split | apply bytes_withpc | apply bytes_withx | apply bytes_withy | apply bytes_withz | skip)
       · first
           | exact pc_JMP_lt _ _
           | ((try simp only [pc_PUx, pc_POx, pc_kp, pc_srcPU1, pc_srcPU2, pc_dstPU1, pc_dstPU2, pc_srcPO1, pc_srcPO2, pc_GETx, pc_GETy, pc_GETz, pc_PUT, pc_DEIop, pc_PEK, pc_setSrc])
              (try dsimp only)
              first | exact hpcD | omega))
    | -- bind branch: a JMI or POK result feeds the final state
      ((try rw [Option.bind_eq_bind] at hs)
       obtain ⟨w, hw, hsome⟩ := Option.bind_eq_some.mp hs
       simp only [Option.some.injEq, Prod.mk.injEq] at hsome
       obtain ⟨h1, h2⟩ := hsome
       subst h1
       first
       | refine bytes_JMI _ _ hw ?_
         iterate 40 (first | exact hBD | apply bytes_PUx | apply bytes_POx | apply bytes_kp | apply bytes_srcPU1 | apply bytes_srcPU2 | apply bytes_dstPU1 | apply bytes_dstPU2 | apply bytes_srcPO1 | apply bytes_srcPO2 | apply bytes_GETx | apply bytes_GETy | apply bytes_GETz | apply bytes_PUT | apply bytes_DEIop | apply bytes_PEK | apply bytes_JMP1 | apply bytes_setSrc | apply sb_getSrc | apply sb_mk | split | apply bytes_withpc | apply bytes_withx | apply bytes_withy | apply bytes_withz | skip)
       | (have hres := bytes_POK _ _ _ _ _ hw (show Bytes _ from by
            iterate 40 (first | exact hBD | apply bytes_PUx | apply bytes_POx | apply bytes_kp | apply bytes_srcPU1 | apply bytes_srcPU2 | apply bytes_dstPU1 | apply bytes_dstPU2 | apply bytes_srcPO1 | apply bytes_srcPO2 | apply bytes_GETx | apply bytes_GETy | apply bytes_GETz | apply bytes_PUT | apply bytes_DEIop | apply bytes_PEK | apply bytes_JMP1 | apply bytes_setSrc | apply sb_getSrc | apply sb_mk | split | apply bytes_withpc | apply bytes_withx | apply bytes_withy | apply bytes_withz | skip))
          refine ⟨hres.1, ?_⟩
          rw [hres.2]
          (try simp only [pc_PUx, pc_POx, pc_kp, pc_srcPU1, pc_srcPU2, pc_dstPU1, pc_dstPU2, pc_srcPO1, pc_srcPO2, pc_GETx, pc_GETy, pc_GETz, pc_PUT, pc_DEIop, pc_PEK, pc_setSrc])
          (try dsimp only)
          first | exact hpcD | omega))

end

theorem pu1_read_val (s : Stack) (v : Nat) :
    (s.PU1 v).cells ((((s.PU1 v).ptr - 1) % 256).toNat) = v % 256 := by
  simp only [Stack.PU1, updFn]
  rw [if_pos (by omega)]

theorem pu2_read_val (s : Stack) (v : Nat) (h : v < 65536) :
    (s.PU2 v).cells ((((s.PU2 v).ptr - 1) % 256).toNat) |||
      (s.PU2 v).cells ((((s.PU2 v).ptr - 1 - 1) % 256).toNat) <<< 8 = v := by
  simp only [Stack.PU2, Stack.PU1, updFn]
  rw [if_pos (by omega), if_neg (by omega), if_pos (by omega)]
  rw [shr8_eq_div, Nat.mod_eq_of_lt (by omega : v / 256 < 256), lor_shl8 _ _ (mod256_lt v)]
  omega

/-- C6. `DIV` (base opcode 0x1b, any mode bits) always succeeds; writing `a`
for the top mode-wide operand and `b` for the one below it (as stored in the
source stack's cells), it pushes `b / a` reduced modulo the mode width when
`a ≠ 0` and pushes 0 when `a = 0`. -/
theorem c6_div_total (u : Uxn) (ins : Nat) (hop : ins &&& 0x1f = 0x1b) :
    ∃ u1, u.stepIns ins = some (u1, ins) ∧
      ((ins &&& 0x20 != 0) = true →
        (((u1.sel (ins &&& 0x40 != 0)).PO2).2 =
          (if (u.sel (ins &&& 0x40 != 0)).cells ((((u.sel (ins &&& 0x40 != 0)).ptr - 1) % 256).toNat) |||
              (u.sel (ins &&& 0x40 != 0)).cells ((((u.sel (ins &&& 0x40 != 0)).ptr - 1 - 1) % 256).toNat) <<< 8 = 0
           then 0
           else ((u.sel (ins &&& 0x40 != 0)).cells ((((u.sel (ins &&& 0x40 != 0)).ptr - 1 - 1 - 1) % 256).toNat) |||
                 (u.sel (ins &&& 0x40 != 0)).cells ((((u.sel (ins &&& 0x40 != 0)).ptr - 1 - 1 - 1 - 1) % 256).toNat) <<< 8) /
                ((u.sel (ins &&& 0x40 != 0)).cells ((((u.sel (ins &&& 0x40 != 0)).ptr - 1) % 256).toNat) |||
                 (u.sel (ins &&& 0x40 != 0)).cells ((((u.sel (ins &&& 0x40 != 0)).ptr - 1 - 1) % 256).toNat) <<< 8) %
                65536))) ∧
      ((ins &&& 0x20 != 0) = false →
        (((u1.sel (ins &&& 0x40 != 0)).PO1).2 =
          (if (u.sel (ins &&& 0x40 != 0)).cells ((((u.sel (ins &&& 0x40 != 0)).ptr - 1) % 256).toNat) = 0
           then 0
           else (u.sel (ins &&& 0x40 != 0)).cells ((((u.sel (ins &&& 0x40 != 0)).ptr - 1 - 1) % 256).toNat) /
                (u.sel (ins &&& 0x40 != 0)).cells ((((u.sel (ins &&& 0x40 != 0)).ptr - 1) % 256).toNat) %
                256))) := by
  cases hm2 : (ins &&& 0x20 != 0) <;> cases hrb : (ins &&& 0x40 != 0) <;>
    cases hmk : (ins &&& 0x80 != 0) <;>
  . simp only [Uxn.stepIns, Uxn.decode, Uxn.dispatch, Uxn.POx, Uxn.PUx, Uxn.srcPO1,
      Uxn.srcPO2, Uxn.srcPU1, Uxn.srcPU2, Uxn.kp, Uxn.getSrc, Uxn.setSrc, Uxn.getDst,
      Uxn.setDst, Uxn.sel, Uxn.setSel, Stack.PO1, Stack.PO2, hop, hm2, hrb, hmk,
      reduceIte, Nat.reduceEqDiff, Bool.false_eq_true, Bool.true_eq_false,
      if_true, if_false]
    refine ⟨_, rfl, fun hmode => ?_, fun hmode => ?_⟩ <;>
      first
      | exact hmode.elim
      | (split_ifs with ha <;>
          simp [pu1_read_val, pu2_read_val, mod65536_lt] <;> omega)

/-- C6 witness: `DIV2` (`ins = 0x3b`) on a concrete machine. -/
theorem c6_div_total_witness :
    (0x3b : Nat) &&& 0x1f = 0x1b ∧
    ∃ u1, swpState.stepIns 0x3b = some (u1, 0x3b) ∧
      ((((0x3b : Nat) &&& 0x20 != 0) = true →
        (((u1.sel ((0x3b : Nat) &&& 0x40 != 0)).PO2).2 =
          (if (swpState.sel ((0x3b : Nat) &&& 0x40 != 0)).cells ((((swpState.sel ((0x3b : Nat) &&& 0x40 != 0)).ptr - 1) % 256).toNat) |||
              (swpState.sel ((0x3b : Nat) &&& 0x40 != 0)).cells ((((swpState.sel ((0x3b : Nat) &&& 0x40 != 0)).ptr - 1 - 1) % 256).toNat) <<< 8 = 0
           then 0
           else ((swpState.sel ((0x3b : Nat) &&& 0x40 != 0)).cells ((((swpState.sel ((0x3b : Nat) &&& 0x40 != 0)).ptr - 1 - 1 - 1) % 256).toNat) |||
                 (swpState.sel ((0x3b : Nat) &&& 0x40 != 0)).cells ((((swpState.sel ((0x3b : Nat) &&& 0x40 != 0)).ptr - 1 - 1 - 1 - 1) % 256).toNat) <<< 8) /
                ((swpState.sel ((0x3b : Nat) &&& 0x40 != 0)).cells ((((swpState.sel ((0x3b : Nat) &&& 0x40 != 0)).ptr - 1) % 256).toNat) |||
                 (swpState.sel ((0x3b : Nat) &&& 0x40 != 0)).cells ((((swpState.sel ((0x3b : Nat) &&& 0x40 != 0)).ptr - 1 - 1) % 256).toNat) <<< 8) %
                65536))) ∧
      (((0x3b : Nat) &&& 0x20 != 0) = false →
        (((u1.sel ((0x3b : Nat) &&& 0x40 != 0)).PO1).2 =
          (if (swpState.sel ((0x3b : Nat) &&& 0x40 != 0)).cells ((((swpState.sel ((0x3b : Nat) &&& 0x40 != 0)).ptr - 1) % 256).toNat) = 0
           then 0
           else (swpState.sel ((0x3b : Nat) &&& 0x40 != 0)).cells ((((swpState.sel ((0x3b : Nat) &&& 0x40 != 0)).ptr - 1 - 1) % 256).toNat) /
                (swpState.sel ((0x3b : Nat) &&& 0x40 != 0)).cells ((((swpState.sel ((0x3b : Nat) &&& 0x40 != 0)).ptr - 1) % 256).toNat) %
                256)))) :=
  ⟨by decide, c6_div_total swpState 0x3b (by decide)⟩

/-- C9. With no emulator frame attached: `DEI` (base opcode 0x16) pushes 0
(a zero byte, or a zero short in short mode) regardless of the contents of
`dev`, and `DEO` (base opcode 0x17) pops its port and value operands but
changes neither `dev` (in particular, the value is not mirrored into
`dev[port]`) nor `ram`, advances `pc` only past the instruction byte,
leaves every cell of both stacks and the whole non-selected stack
unchanged, and only moves the source stack's pointer down by the popped
width (restoring it when the keep bit is set). -/
theorem c9_dei_deo_no_emu :
    (∀ (u : Uxn) (ins : Nat), ins &&& 0x1f = 0x16 →
      ∃ u1, u.stepIns ins = some (u1, ins) ∧
        u1.dev = u.dev ∧ u1.ram = u.ram ∧
        ((ins &&& 0x20 != 0) = true → ((u1.sel (ins &&& 0x40 != 0)).PO2).2 = 0) ∧
        ((ins &&& 0x20 != 0) = false → ((u1.sel (ins &&& 0x40 != 0)).PO1).2 = 0)) ∧
    (∀ (u : Uxn) (ins : Nat), ins &&& 0x1f = 0x17 →
      ∃ u1, u.stepIns ins = some (u1, ins) ∧
        u1.dev = u.dev ∧ u1.ram = u.ram ∧ u1.pc = (u.pc + 1) % 65536 ∧
        (u1.sel (ins &&& 0x40 != 0)).cells = (u.sel (ins &&& 0x40 != 0)).cells ∧
        u1.sel (!(ins &&& 0x40 != 0)) = u.sel (!(ins &&& 0x40 != 0)) ∧
        (u1.sel (ins &&& 0x40 != 0)).ptr =
          (if (ins &&& 0x80 != 0) = true then (u.sel (ins &&& 0x40 != 0)).ptr
           else (u.sel (ins &&& 0x40 != 0)).ptr -
             (if (ins &&& 0x20 != 0) = true then 3 else 2))) := by
  constructor
  . intro u ins hop
    cases hm2 : (ins &&& 0x20 != 0) <;> cases hrb : (ins &&& 0x40 != 0) <;>
      cases hmk : (ins &&& 0x80 != 0) <;>
    . simp only [Uxn.stepIns, Uxn.decode, Uxn.dispatch, Uxn.POx, Uxn.PUx, Uxn.srcPO1,
        Uxn.srcPO2, Uxn.srcPU1, Uxn.srcPU2, Uxn.dstPU1, Uxn.dstPU2, Uxn.GETx, Uxn.GETy,
        Uxn.GETz, Uxn.GETv, Uxn.PUT, Uxn.kp, Uxn.getSrc, Uxn.setSrc, Uxn.getDst,
        Uxn.setDst, Uxn.sel, Uxn.setSel, Uxn.DEIop, Stack.PU1, Stack.PU2, Stack.PO1,
        Stack.PO2, hop, hm2, hrb, hmk, reduceIte, Nat.reduceEqDiff, Bool.false_eq_true,
        if_true, if_false, Bool.not_true, Bool.not_false]
      refine ⟨_, rfl, rfl, rfl, ?_, ?_⟩ <;> intro h <;> simp_all <;>
        simp [updFn, Stack.PO1, Stack.PO2]
  . intro u ins hop
    cases hm2 : (ins &&& 0x20 != 0) <;> cases hrb : (ins &&& 0x40 != 0) <;>
      cases hmk : (ins &&& 0x80 != 0) <;>
    . simp only [Uxn.stepIns, Uxn.decode, Uxn.dispatch, Uxn.POx, Uxn.PUx, Uxn.srcPO1,
        Uxn.srcPO2, Uxn.srcPU1, Uxn.srcPU2, Uxn.dstPU1, Uxn.dstPU2, Uxn.GETx, Uxn.GETy,
        Uxn.GETz, Uxn.GETv, Uxn.PUT, Uxn.kp, Uxn.getSrc, Uxn.setSrc, Uxn.getDst,
        Uxn.setDst, Uxn.sel, Uxn.setSel, Uxn.DEIop, Stack.PU1, Stack.PU2, Stack.PO1,
        Stack.PO2, hop, hm2, hrb, hmk, reduceIte, Nat.reduceEqDiff, Bool.false_eq_true,
        if_true, if_false, Bool.not_true, Bool.not_false]
      refine ⟨_, rfl, rfl, rfl, rfl, rfl, rfl, ?_⟩
      simp
      try omega

/-- C9 witness: `DEI` (`0x16`) and `DEO` (`0x17`) on a machine whose device
page is nonzero everywhere. -/
theorem c9_dei_deo_no_emu_witness :
    ((0x16 : Nat) &&& 0x1f = 0x16 ∧
      ∃ u1, deiWitState.stepIns 0x16 = some (u1, 0x16) ∧
        u1.dev = deiWitState.dev ∧ u1.ram = deiWitState.ram ∧
        (((0x16 : Nat) &&& 0x20 != 0) = true → ((u1.sel ((0x16 : Nat) &&& 0x40 != 0)).PO2).2 = 0) ∧
        (((0x16 : Nat) &&& 0x20 != 0) = false → ((u1.sel ((0x16 : Nat) &&& 0x40 != 0)).PO1).2 = 0)) ∧
    ((0x17 : Nat) &&& 0x1f = 0x17 ∧
      ∃ u1, deiWitState.stepIns 0x17 = some (u1, 0x17) ∧
        u1.dev = deiWitState.dev ∧ u1.ram = deiWitState.ram ∧
        u1.pc = (deiWitState.pc + 1) % 65536 ∧
        (u1.sel ((0x17 : Nat) &&& 0x40 != 0)).cells = (deiWitState.sel ((0x17 : Nat) &&& 0x40 != 0)).cells ∧
        u1.sel (!((0x17 : Nat) &&& 0x40 != 0)) = deiWitState.sel (!((0x17 : Nat) &&& 0x40 != 0)) ∧
        (u1.sel ((0x17 : Nat) &&& 0x40 != 0)).ptr =
          (if (((0x17 : Nat) &&& 0x80 != 0)) = true then (deiWitState.sel ((0x17 : Nat) &&& 0x40 != 0)).ptr
           else (deiWitState.sel ((0x17 : Nat) &&& 0x40 != 0)).ptr -
             (if (((0x17 : Nat) &&& 0x20 != 0)) = true then 3 else 2))) :=
  ⟨⟨by decide, c9_dei_deo_no_emu.1 deiWitState 0x16 (by decide)⟩,
   ⟨by decide, c9_dei_deo_no_emu.2 deiWitState 0x17 (by decide)⟩⟩

/-- C7. Delivering a console input character `char` of kind `k` (both
bytes): the device page is updated to `dev[0x12] = char` and
`dev[0x17] = k` with all other device bytes unchanged, and the VM is
re-entered through `eval` at the vector `v = (dev[0x10] << 8) | dev[0x11]`
exactly when `v ≠ 0`; when `v = 0` the call returns without running any VM
code or raising: `pc`, both stacks and `ram` are untouched. -/
theorem c7_console_input (u : Uxn) (char kind : Nat)
    (hc : char < 256) (hk : kind < 256) :
    ∃ u2 : Uxn,
      (peek16 u.dev 0x10 ≠ 0 → Console.input u char kind = u2.eval (peek16 u.dev 0x10)) ∧
      (peek16 u.dev 0x10 = 0 → Console.input u char kind = some u2) ∧
      u2.dev 0x12 = char ∧ u2.dev 0x17 = kind ∧
      (∀ i, i ≠ 0x12 → i ≠ 0x17 → u2.dev i = u.dev i) ∧
      u2.wst = u.wst ∧ u2.rst = u.rst ∧ u2.ram = u.ram ∧ u2.pc = u.pc := by
  refine ⟨{ u with dev := updFn (updFn u.dev 0x12 (char % 256)) 0x17 (kind % 256) },
    ?_, ?_, ?_, ?_, ?_, rfl, rfl, rfl, rfl⟩
  . intro hv
    simp [Console.input, hv]
  . intro hv
    simp [Console.input, hv]
  . simp [updFn]
    omega
  . simp [updFn]
    omega
  . intro i h1 h2
    simp [updFn, h1, h2]

/-- C7 witness: a fresh machine (vector 0) receiving character 65, kind 1. -/
theorem c7_console_input_witness :
    (65 : Nat) < 256 ∧ (1 : Nat) < 256 ∧
    ∃ u2 : Uxn,
      (peek16 initUxn.dev 0x10 ≠ 0 → Console.input initUxn 65 1 = u2.eval (peek16 initUxn.dev 0x10)) ∧
      (peek16 initUxn.dev 0x10 = 0 → Console.input initUxn 65 1 = some u2) ∧
      u2.dev 0x12 = 65 ∧ u2.dev 0x17 = 1 ∧
      (∀ i, i ≠ 0x12 → i ≠ 0x17 → u2.dev i = initUxn.dev i) ∧
      u2.wst = initUxn.wst ∧ u2.rst = initUxn.rst ∧ u2.ram = initUxn.ram ∧
      u2.pc = initUxn.pc :=
  ⟨by decide, by decide, c7_console_input initUxn 65 1 (by decide) (by decide)⟩

/-- C4 witness: the all-zero reset machine satisfies the byte invariant and
its first step (a `BRK`) preserves it. -/
theorem c4_width_mask_amended_witness :
    Bytes (romState []) ∧
    ∃ u1 n, (romState []).step = some (u1, n) ∧ Bytes u1 ∧ u1.pc < 65536 := by
  have hB : Bytes (romState []) := by
    refine ⟨fun i => ?_, fun i => ?_, fun i => ?_, fun i => ?_⟩ <;>
      simp [romState, initUxn, initStack, romRam, listCells]
  obtain ⟨⟨u1, n⟩, hp⟩ : ∃ p, (romState []).step = some p := ⟨_, rfl⟩
  exact ⟨hB, u1, n, hp, c4_width_mask_amended _ hB _ _ hp⟩

theorem popN_spec (a : Nat) : ∀ s : Stack,
    (popN s a).cells = s.cells ∧ (popN s a).ptr = s.ptr - a ∧
    (popN s a).ptrk = s.ptrk := by
  induction a with
  | zero =>
    intro s
    refine ⟨rfl, by simp [popN], rfl⟩
  | succ n ih =>
    intro s
    obtain ⟨h1, h2, h3⟩ := ih (s.PO1).1
    simp only [popN]
    refine ⟨h1, ?_, h3⟩
    rw [h2]
    simp only [Stack.PO1]
    omega

theorem popVals_congr : ∀ (a : Nat) (s t : Stack),
    s.cells = t.cells → s.ptr = t.ptr → popVals s a = popVals t a := by
  intro a
  induction a with
  | zero => intro s t _ _; rfl
  | succ n ih =>
    intro s t hc hp
    simp only [popVals, Stack.PO1]
    rw [hc, hp]
    refine congrArg₂ List.cons rfl (ih _ _ rfl rfl)

theorem pushList_ptr : ∀ (vs : List Nat) (s : Stack),
    (pushList s vs).ptr = s.ptr + vs.length := by
  intro vs
  induction vs with
  | nil => intro s; simp [pushList]
  | cons v rest ih =>
    intro s
    simp only [pushList, List.length_cons]
    rw [ih (s.PU1 v)]
    simp only [Stack.PU1]
    omega

theorem pushList_ptrk : ∀ (vs : List Nat) (s : Stack),
    (pushList s vs).ptrk = s.ptrk := by
  intro vs
  induction vs with
  | nil => intro s; rfl
  | cons v rest ih =>
    intro s
    simp only [pushList]
    rw [ih (s.PU1 v)]
    rfl

theorem pushList_frame : ∀ (vs : List Nat) (s : Stack) (j : Nat),
    (∀ i, i < vs.length → j ≠ ((s.ptr + i) % 256).toNat) →
    (pushList s vs).cells j = s.cells j := by
  intro vs
  induction vs with
  | nil => intro s j _; rfl
  | cons v rest ih =>
    intro s j h
    have hrest : ∀ i, i < rest.length → j ≠ (((s.PU1 v).ptr + i) % 256).toNat := by
      intro k hk
      have h1 := h (k + 1) (by simp only [List.length_cons]; omega)
      simp only [Stack.PU1]
      omega
    have h0 := h 0 (by simp only [List.length_cons]; omega)
    simp only [pushList]
    rw [ih (s.PU1 v) j hrest]
    simp only [Stack.PU1, updFn]
    rw [if_neg (by omega)]

theorem pushList_window : ∀ (vs : List Nat) (sa sb : Stack), vs.length ≤ 255 →
    ∀ i, i < vs.length →
    (pushList sa vs).cells (((sa.ptr + i) % 256).toNat) =
      (pushList sb vs).cells (((sb.ptr + i) % 256).toNat) := by
  intro vs
  induction vs with
  | nil =>
    intro sa sb _ i hi
    simp at hi
  | cons v rest ih =>
    intro sa sb hlen i hi
    simp only [pushList]
    cases i with
    | zero =>
      have hfa : ∀ k, k < rest.length →
          ((sa.ptr + ((0 : Nat) : Int)) % 256).toNat ≠ (((sa.PU1 v).ptr + k) % 256).toNat := by
        intro k hk
        have hk2 : k + 1 ≤ 255 := by simp only [List.length_cons] at hlen; omega
        simp only [Stack.PU1]
        omega
      have hfb : ∀ k, k < rest.length →
          ((sb.ptr + ((0 : Nat) : Int)) % 256).toNat ≠ (((sb.PU1 v).ptr + k) % 256).toNat := by
        intro k hk
        have hk2 : k + 1 ≤ 255 := by simp only [List.length_cons] at hlen; omega
        simp only [Stack.PU1]
        omega
      rw [pushList_frame rest (sa.PU1 v) _ hfa, pushList_frame rest (sb.PU1 v) _ hfb]
      simp only [Stack.PU1, updFn]
      rw [if_pos (by omega), if_pos (by omega)]
    | succ j =>
      have hlen2 : rest.length ≤ 255 := by simp only [List.length_cons] at hlen; omega
      have hj : j < rest.length := by simp only [List.length_cons] at hi; omega
      have e1 : ((sa.ptr + ((j + 1 : Nat) : Int)) % 256).toNat =
          (((sa.PU1 v).ptr + ((j : Nat) : Int)) % 256).toNat := by
        simp only [Stack.PU1]
        omega
      have e2 : ((sb.ptr + ((j + 1 : Nat) : Int)) % 256).toNat =
          (((sb.PU1 v).ptr + ((j : Nat) : Int)) % 256).toNat := by
        simp only [Stack.PU1]
        omega
      rw [e1, e2]
      exact ih (sa.PU1 v) (sb.PU1 v) hlen2 j hj

/-- C5 (amended). The keep-mode discipline of `Uxn.step` — snapshot
`ptrk := ptr`, pop some bytes, restore `ptr := ptrk` (`Uxn.k`), then push
the computed bytes — applied to any starting stack `s`, any pop count `a`
and any pushed byte sequence `vs` (every non-branching opcode's effect on
its source stack has this shape: all its pops are `PO1` chains run before
`self.k()` and all its pushes are `PU1` chains run after, with at most 6
pushed bytes). Compared with the plain run (same pops and pushes, no
snapshot/restore): the pops return the same values, so the pushed bytes of
a real instruction coincide; the keep run ends with
`ptr = ptrk + pushed_bytes` (NOT `ptrk + (pushed_bytes - popped_bytes)`:
the pops are undone by the restore, so only the pushes move the pointer)
where `ptrk` is the starting pointer; the plain run ends at
`ptr - popped + pushed`; the keep run leaves every cell outside its push
window unchanged; and both runs write the same bytes into their respective
push windows. -/
theorem c5_keep_discipline (s : Stack) (a : Nat) (vs : List Nat)
    (hlen : vs.length ≤ 255) :
    popVals (s.snapshot) a = popVals s a ∧
    (pushList ((popN (s.snapshot) a).restore) vs).ptr = s.ptr + vs.length ∧
    (pushList ((popN (s.snapshot) a).restore) vs).ptrk = s.ptr ∧
    (pushList (popN s a) vs).ptr = s.ptr - a + vs.length ∧
    (∀ j : Nat, (∀ i, i < vs.length → j ≠ ((s.ptr + i) % 256).toNat) →
      (pushList ((popN (s.snapshot) a).restore) vs).cells j = s.cells j) ∧
    (∀ i, i < vs.length →
      (pushList ((popN (s.snapshot) a).restore) vs).cells (((s.ptr + i) % 256).toNat) =
        (pushList (popN s a) vs).cells (((s.ptr - a + i) % 256).toNat)) := by
  obtain ⟨hc1, hp1, hk1⟩ := popN_spec a s.snapshot
  obtain ⟨hc2, hp2, hk2⟩ := popN_spec a s
  have hKcells : ((popN (s.snapshot) a).restore).cells = s.cells := by
    simp only [Stack.restore]
    rw [hc1]
    rfl
  have hKptr : ((popN (s.snapshot) a).restore).ptr = s.ptr := by
    simp only [Stack.restore]
    rw [hk1]
    rfl
  have hKptrk : ((popN (s.snapshot) a).restore).ptrk = s.ptr := by
    simp only [Stack.restore]
    rw [hk1]
    rfl
  refine ⟨popVals_congr a s.snapshot s rfl rfl, ?_, ?_, ?_, ?_, ?_⟩
  . rw [pushList_ptr vs _, hKptr]
  . rw [pushList_ptrk vs _, hKptrk]
  . rw [pushList_ptr vs _, hp2]
  . intro j hj
    have hj2 : ∀ i, i < vs.length →
        j ≠ ((((popN (s.snapshot) a).restore).ptr + i) % 256).toNat := by
      intro i hi
      rw [hKptr]
      exact hj i hi
    rw [pushList_frame vs _ j hj2, hKcells]
  . intro i hi
    have h := pushList_window vs ((popN (s.snapshot) a).restore) (popN s a) hlen i hi
    rw [hKptr, hp2] at h
    exact h

/-- C5 witness: the discipline instance of the `ADDk` byte-mode scenario —
stack `03 04`, two pops, one pushed byte `07`. -/
theorem c5_keep_discipline_witness :
    ([(7 : Nat)].length ≤ 255) ∧
    (popVals (addkStack.snapshot) 2 = popVals addkStack 2 ∧
     (pushList ((popN (addkStack.snapshot) 2).restore) [7]).ptr =
       addkStack.ptr + [(7 : Nat)].length ∧
     (pushList ((popN (addkStack.snapshot) 2).restore) [7]).ptrk = addkStack.ptr ∧
     (pushList (popN addkStack 2) [7]).ptr = addkStack.ptr - 2 + [(7 : Nat)].length ∧
     (∀ j : Nat, (∀ i, i < [(7 : Nat)].length → j ≠ ((addkStack.ptr + i) % 256).toNat) →
       (pushList ((popN (addkStack.snapshot) 2).restore) [7]).cells j = addkStack.cells j) ∧
     (∀ i, i < [(7 : Nat)].length →
       (pushList ((popN (addkStack.snapshot) 2).restore) [7]).cells
           (((addkStack.ptr + i) % 256).toNat) =
         (pushList (popN addkStack 2) [7]).cells
           (((addkStack.ptr - 2 + i) % 256).toNat))) :=
  ⟨by decide, c5_keep_discipline addkStack 2 [7] (by decide)⟩

/-- C5 counterexample. Executing `ADDk` (instruction byte 0x98) on the
working stack `03 04` (`ptr = 2`): afterwards the stack is `03 04 07` with
`ptr = 3` and the snapshot `ptrk = 2`, but the spec formula
`ptrk + (pushed_bytes - popped_bytes) = 2 + (1 - 2) = 1` does not match:
the restore undoes the pops, so the final pointer is `ptrk + pushed_bytes`. -/
theorem c5_keep_formula_cex :
    ∃ u1, addkState.step = some (u1, 0x98) ∧
      u1.wst.ptrk = 2 ∧ u1.wst.ptr = 3 ∧
      u1.wst.cells 0 = 3 ∧ u1.wst.cells 1 = 4 ∧ u1.wst.cells 2 = 7 ∧
      pushBytes (0x98 &&& 0x1f) false = 1 ∧ popBytes (0x98 &&& 0x1f) false = 2 ∧
      u1.wst.ptr ≠ u1.wst.ptrk +
        ((pushBytes (0x98 &&& 0x1f) false : Int) - (popBytes (0x98 &&& 0x1f) false : Int)) := by
  refine ⟨_, rfl, by decide, by decide, by decide, by decide, by decide,
    by decide, by decide, by decide⟩

/-- C1 (code evaluation at the failing input). Executing `SWP` in short mode
(instruction byte `0x24`) on a source stack holding the shorts `b = 0x1122`
(second) and `a = 0x3344` (top) yields a stack whose top short reads back as
`0x2211` and whose second short reads back as `0x4433`: the two shorts are
swapped, but each one comes back byte-swapped, not preserved as the spec
requires. -/
theorem c1_swp2_bytes_swapped :
    (swpState.step).map
        (fun r => ((r.1.wst.PO2).2, ((r.1.wst.PO2).1.PO2).2)) =
      some (0x2211, 0x4433) ∧
    (0x2211, 0x4433) ≠ (0x1122, 0x3344) := by
  constructor
  · decide
  · decide

/-- C2 (code evaluation at the failing input). Executing instruction `0xc0`
with immediate byte `0x42` pushes `0x42` onto the WORKING stack (`wst.ptr`
becomes 1 and `wst[0] = 0x42`) and leaves the return stack's pointer at 0:
the return-mode literal goes to `dst = wst`, not to RST as specified. -/
theorem c2_litr_pushes_to_wst :
    (litrState.step).map
        (fun r => (r.1.wst.ptr, r.1.wst.cells 0, r.1.rst.ptr, r.1.pc)) =
      some (1, 0x42, 0, 0x102) := by
  decide

/-- C3 (code evaluation at the failing input). Executing `JMI` (0x40)
fetched at `pc = 0xfffe` makes the immediate-operand read
`ram[pc + 1] = ram[0x10000]` go out of bounds: the step fails (Python
raises `IndexError`), so the VM is not total. -/
theorem c3_jmi_operand_fetch_crashes : jmiEdgeState.step = none := by
  rfl

/-- C4 counterexample. Executing `POP` (0x02) from the reset state — a
reachable state — leaves the working stack's `ptr` at `-1`, which is not
in `[0, 256)`: the pointer is stored unreduced. -/
theorem c4_ptr_out_of_range_cex :
    (popState.step).map (fun r => r.1.wst.ptr) = some (-1) ∧
    ¬ (0 ≤ (-1 : Int) ∧ (-1 : Int) < 256) := by
  constructor
  · decide
  · decide

end Uxnpy
